import Mathlib

/-!
Verification of the two scripts in this repository.

Part 1 models `src/data.py` (the usage-calculator helpers `parse_size` and
`manual_entry`).  Part 2 models the dictation controller of
`src/local_whisper_dictator.py` as an explicit state machine.

Strings are modelled as lists of Unicode code points (`List Nat`); Python's
`float` values are modelled exactly as rationals (`ℚ`), which agrees with the
source on every value the spec mentions (all are exactly representable).
-/

/-- Code points of a Lean string, the model of a Python `str`. -/
def toCodes (s : String) : List Nat := s.data.map Char.toNat

/-- Model of Python whitespace (the class stripped by `str.strip` and matched
by the regex class `\s`): space, tab, LF, VT, FF, CR. -/
def isSpaceCode (d : Nat) : Bool :=
  decide (d = 32 ∨ d = 9 ∨ d = 10 ∨ d = 11 ∨ d = 12 ∨ d = 13)

/-- Model of the regex class `\d` (ASCII digits `0`-`9`, code points 48-57). -/
def isDigitCode (d : Nat) : Bool := decide (48 ≤ d ∧ d ≤ 57)

/-- Model of the regex class `[\d.]` used for the numeric group of
`parse_size`'s pattern (`.` has code point 46). -/
def isNumChar (d : Nat) : Bool := isDigitCode d || d == 46

/-- Model of `str.upper` on one ASCII code point (lowercase letters 97-122 map
down by 32; everything else is unchanged).  The inputs of interest are ASCII. -/
def upperCode (d : Nat) : Nat := if 97 ≤ d ∧ d ≤ 122 then d - 32 else d

/-- Model of Python `str.strip()`: remove leading and trailing whitespace. -/
def pyStrip (cs : List Nat) : List Nat :=
  ((cs.dropWhile isSpaceCode).reverse.dropWhile isSpaceCode).reverse

/-- Value of a list of ASCII digit code points read in base 10. -/
def digitsVal (ds : List Nat) : Nat := ds.foldl (fun a d => 10 * a + (d - 48)) 0

/-- Model of Python `float()` applied to a string drawn from the class
`[\d.]+` (the only strings `parse_size` ever passes to `float`): it succeeds
iff there is at most one dot and at least one digit, and then denotes
`intpart.fracpart` exactly as a rational.  `float()` raising `ValueError`
(e.g. on `"1.2.3"` or `"."`) is modelled as `none`. -/
def pyFloat (cs : List Nat) : Option ℚ :=
  if cs.count 46 ≤ 1 ∧ cs.any isDigitCode then
    let ip := cs.takeWhile (fun d => d != 46)
    let fp := (cs.dropWhile (fun d => d != 46)).drop 1
    some ((digitsVal ip : ℚ) + (digitsVal fp : ℚ) / (10 : ℚ) ^ fp.length)
  else none

/-- Model of `parse_size` (src/data.py lines 23-40) on a code-point list:
strip, uppercase, match `^([\d.]+)\s*(MB|GB|TB)?$` (the character classes of
the three regex pieces are disjoint, so the greedy match is longest-prefix
and needs no backtracking), convert the numeric group with `float`, scale by
the unit.  `none` models the `ValueError` raised on a failed match or a
failed `float` conversion.  Unit code points: `M` 77, `G` 71, `T` 84, `B` 66. -/
def parseSizeAux (cs : List Nat) : Option ℚ :=
  let t := (pyStrip cs).map upperCode
  let num := t.takeWhile isNumChar
  let rest := t.dropWhile isNumChar
  if num = [] then none
  else
    let rest2 := rest.dropWhile isSpaceCode
    if rest2 = [] then pyFloat num
    else if rest2 = [77, 66] then pyFloat num
    else if rest2 = [71, 66] then (pyFloat num).map (fun v => v * 1024)
    else if rest2 = [84, 66] then (pyFloat num).map (fun v => v * 1024 * 1024)
    else none

/-- Model of `parse_size` (src/data.py lines 23-40) on a Lean string. -/
def parse_size (s : String) : Option ℚ := parseSizeAux (toCodes s)

/-- Model of `manual_entry` (src/data.py lines 42-51).  The argument is the
sequence of strings the user types at the repeated prompt; the result is the
value returned for the first accepted entry (`none` if the user never enters
an acceptable string, in which case the source loops forever).  As in the
source, the raw input is stripped first; an empty stripped entry returns
`0.0` at once; otherwise `parse_size` is applied and a `ValueError`
re-prompts. -/
def manual_entry : List String → Option ℚ
  | [] => none
  | inp :: rest =>
    let cs := pyStrip (toCodes inp)
    if cs = [] then some 0
    else
      match parseSizeAux cs with
      | some v => some v
      | none => manual_entry rest

/-- Number of prompts `manual_entry` (src/data.py lines 42-51) issues before
returning, on the same input-sequence model as `manual_entry`. -/
def manual_entry_prompts : List String → Nat
  | [] => 0
  | inp :: rest =>
    let cs := pyStrip (toCodes inp)
    if cs = [] then 1
    else
      match parseSizeAux cs with
      | some _ => 1
      | none => 1 + manual_entry_prompts rest

/-!
Part 2: the dictation controller of `src/local_whisper_dictator.py`.

The controller's mutable globals (lines 30-40) become the fields of a state
record; the handler functions become state transformers.  External
capabilities are parameters: whether `sd.InputStream(...)` / `.start()`
succeeds, whether the tray-icon update succeeds, the result of
`model.transcribe` (a list of segment texts, or an exception), and the
per-character success of `pynput`'s key injection.  Python exceptions are
modelled with `Except`: `.error` means the exception propagates out of the
modelled function, `.ok` means it returns normally.

Observables recorded in the state: `sessions_started` counts successful
capture-stream opens, `transcribe_calls` counts `model.transcribe`
invocations, and `typed` lists the strings handed to `type_text`.
-/

/-- The three values of the presence indicator (tray icon/title): IDLE_ICON,
LISTENING_ICON, TRANSCRIBING_ICON (lines 38-40, 58-60, 86-88, 133-136). -/
inductive Ind
  | Idle
  | Listening
  | Transcribing
deriving DecidableEq

/-- State of the dictation controller: the module-level globals of
src/local_whisper_dictator.py (lines 30-40) plus observables.
`pending_worker` records that `stop_recording_and_transcribe` has spawned a
transcription worker thread (line 91) that has not yet run to completion. -/
structure S where
  is_recording : Bool
  current_audio_data : List Nat
  indicator : Ind
  stream_open : Bool
  pending_worker : Bool
  sessions_started : Nat
  transcribe_calls : Nat
  typed : List String
deriving DecidableEq

/-- State at startup: not recording, empty accumulator, icon IDLE (line 202),
no stream, no worker. -/
def init : S :=
  { is_recording := false
    current_audio_data := []
    indicator := Ind.Idle
    stream_open := false
    pending_worker := false
    sessions_started := 0
    transcribe_calls := 0
    typed := [] }

/-- Model of `start_recording` (lines 52-75).  `indOk` says whether the tray
update `icon.icon = LISTENING_ICON` (line 59) succeeds — the source has no
try/except around it, so a failure there propagates (`.error`, carrying the
state at the point of propagation).  `openOk` says whether
`sd.InputStream(...).start()` (lines 64-72) succeeds; its failure IS caught
(lines 73-75) and only resets the `is_recording` flag.  Mirrors the source
order: set flag, clear accumulator, update icon, then try to open. -/
def start_recording (indOk openOk : Bool) (s : S) : Except S S :=
  if s.is_recording then Except.ok s
  else
    let s1 := { s with is_recording := true, current_audio_data := [] }
    if indOk then
      let s2 := { s1 with indicator := Ind.Listening }
      if openOk then
        Except.ok { s2 with stream_open := true,
                            sessions_started := s2.sessions_started + 1 }
      else
        Except.ok { s2 with is_recording := false }
    else Except.error s1

/-- Model of `audio_callback` (lines 43-50): append the incoming frame to
`current_audio_data` iff `is_recording` is set. -/
def audio_callback (f : Nat) (s : S) : S :=
  if s.is_recording then
    { s with current_audio_data := s.current_audio_data ++ [f] }
  else s

/-- Model of `stop_recording_and_transcribe` (lines 77-91): if recording,
clear the flag, stop/close the stream, set the icon to TRANSCRIBING, and
spawn the transcription worker thread; otherwise do nothing. -/
def stop_recording_and_transcribe (s : S) : S :=
  if s.is_recording then
    { s with is_recording := false
             stream_open := false
             indicator := Ind.Transcribing
             pending_worker := true }
  else s

/-- Model of `process_audio_for_transcription` (lines 93-136).  `tr` is the
external `model.transcribe` capability, returning the list of segment texts
or raising (`.error`).  With an empty accumulator the source returns at line
98, BEFORE the try/finally, so the icon is not touched.  Otherwise the
segments are joined and stripped (line 125); non-empty text goes to
`type_text` (line 130) inside the try; the `finally` (lines 133-136) reverts
the icon to IDLE on both the normal and the exception path. -/
def process_audio_for_transcription
    (tr : List Nat → Except Unit (List String)) (s : S) : S :=
  if s.current_audio_data = [] then s
  else
    let s1 := { s with transcribe_calls := s.transcribe_calls + 1 }
    match tr s.current_audio_data with
    | Except.ok segs =>
      let text := (String.intercalate " " segs).trim
      let s2 := if text = "" then s1 else { s1 with typed := s1.typed ++ [text] }
      { s2 with indicator := Ind.Idle }
    | Except.error _ => { s1 with indicator := Ind.Idle }

/-- Model of `stop_recording_and_transcribe` (lines 77-91) with a fallible
indicator update, analogous to `start_recording`'s `indOk`: the tray update
`icon.icon = TRANSCRIBING_ICON` (lines 86-88) has no try/except around it,
so a failure there propagates out of the hotkey-release handler (`.error`,
carrying the state at the point of propagation) and the worker thread
(line 91) is never spawned.  Mirrors the source order: clear the flag,
stop/close the stream, update the icon, spawn the worker.  With
`indOk = true` this is exactly `stop_recording_and_transcribe`
(`stop_ind_coherent` below). -/
def stop_recording_and_transcribe_ind (indOk : Bool) (s : S) : Except S S :=
  if s.is_recording then
    let s1 := { s with is_recording := false, stream_open := false }
    if indOk then
      Except.ok { s1 with indicator := Ind.Transcribing, pending_worker := true }
    else Except.error s1
  else Except.ok s

/-- Model of `process_audio_for_transcription` (lines 93-136) with a
fallible indicator update: the `finally` block's tray revert
`icon.icon = IDLE_ICON` (lines 133-136) has no try/except around it either,
so a failure there propagates out of the worker thread (`.error`) and the
indicator is left un-reverted, after transcription (and, on non-empty text,
typing) already ran inside the `try`.  With `indOk = true` this is exactly
`process_audio_for_transcription` (`process_ind_coherent` below). -/
def process_audio_for_transcription_ind (indOk : Bool)
    (tr : List Nat → Except Unit (List String)) (s : S) : Except S S :=
  if s.current_audio_data = [] then Except.ok s
  else
    let s1 := { s with transcribe_calls := s.transcribe_calls + 1 }
    let s2 :=
      match tr s.current_audio_data with
      | Except.ok segs =>
        let text := (String.intercalate " " segs).trim
        if text = "" then s1 else { s1 with typed := s1.typed ++ [text] }
      | Except.error _ => s1
    if indOk then Except.ok { s2 with indicator := Ind.Idle }
    else Except.error s2

/-- Model of `type_text` (lines 139-148).  `ok c` says whether injecting the
press+release pair for character `c` succeeds.  The source loop has no
try/except, so the first failing character raises out of the loop.  Result:
the characters actually injected, and `true` iff the loop completed without
an exception. -/
def type_text (ok : Char → Bool) : List Char → List Char × Bool
  | [] => ([], true)
  | c :: cs =>
    if ok c then
      let r := type_text ok cs
      (c :: r.1, r.2)
    else ([], false)

/-- External capabilities fixed for a run of the event machine: whether
stream opens succeed, and the transcription engine. -/
structure Env where
  openOk : Bool
  tr : List Nat → Except Unit (List String)

/-- Events driving the controller: `down`/`up` are the hotkey edge events
(`on_press`/`on_release` with `key == HOTKEY_KEY`, lines 151-161), `frame f`
is a capture-callback delivery, and `workerDone` is the spawned
transcription worker thread running to completion. -/
inductive Ev
  | down
  | up
  | frame (f : Nat)
  | workerDone
deriving DecidableEq

/-- One controller step.  Hotkey-down runs `start_recording` (tray updates
succeed on this level; stream-open success comes from the environment);
hotkey-up runs `stop_recording_and_transcribe`; a frame is delivered only
while the capture stream is open; `workerDone` runs the body of the spawned
worker thread if one is pending. -/
def step (env : Env) (s : S) : Ev → S
  | Ev.down =>
    match start_recording true env.openOk s with
    | Except.ok t => t
    | Except.error t => t
  | Ev.up => stop_recording_and_transcribe s
  | Ev.frame f => if s.stream_open then audio_callback f s else s
  | Ev.workerDone =>
    if s.pending_worker then
      process_audio_for_transcription env.tr { s with pending_worker := false }
    else s

/-- Run the controller over a sequence of events. -/
def run (env : Env) (s : S) (evs : List Ev) : S := evs.foldl (step env) s

/-- The session state named by the spec: `Recording` while the recording
flag is set, `Transcribing` while a spawned worker is still live, `Idle`
otherwise. -/
inductive Phase
  | Idle
  | Recording
  | Transcribing
deriving DecidableEq

/-- Spec-level phase read off the controller state. -/
def phase (s : S) : Phase :=
  if s.is_recording then Phase.Recording
  else if s.pending_worker then Phase.Transcribing
  else Phase.Idle

/-- Environment for concrete runs: stream opens succeed, transcriber
returns no segments. -/
def env0 : Env := { openOk := true, tr := fun _ => Except.ok [] }

/-!
General list helpers used by the proofs below.
-/

theorem dropWhile_eq_self_of_forall {α : Type} (p : α → Bool) (l : List α)
    (h : ∀ x ∈ l, p x = false) : l.dropWhile p = l := by
  cases l with
  | nil => rfl
  | cons a t => simp [List.dropWhile_cons, h a (List.mem_cons_self a t)]

theorem dropWhile_eq_nil_of_forall {α : Type} (p : α → Bool) (l : List α)
    (h : ∀ x ∈ l, p x = true) : l.dropWhile p = [] := by
  induction l with
  | nil => rfl
  | cons a t ih =>
    simp only [List.dropWhile_cons, h a (List.mem_cons_self a t), if_true]
    exact ih fun x hx => h x (List.mem_cons_of_mem a hx)

theorem takeWhile_eq_self_of_forall {α : Type} (p : α → Bool) (l : List α)
    (h : ∀ x ∈ l, p x = true) : l.takeWhile p = l := by
  induction l with
  | nil => rfl
  | cons a t ih =>
    simp only [List.takeWhile_cons, h a (List.mem_cons_self a t), if_true]
    exact congrArg (a :: ·) (ih fun x hx => h x (List.mem_cons_of_mem a hx))

theorem map_eq_self_of_forall {α : Type} (f : α → α) (l : List α)
    (h : ∀ x ∈ l, f x = x) : l.map f = l := by
  induction l with
  | nil => rfl
  | cons a t ih =>
    simp only [List.map_cons, h a (List.mem_cons_self a t)]
    exact congrArg (a :: ·) (ih fun x hx => h x (List.mem_cons_of_mem a hx))

theorem pyStrip_eq_self (l : List Nat) (h : ∀ x ∈ l, isSpaceCode x = false) :
    pyStrip l = l := by
  unfold pyStrip
  rw [dropWhile_eq_self_of_forall _ _ h,
    dropWhile_eq_self_of_forall _ _ (fun x hx => h x (List.mem_reverse.mp hx)),
    List.reverse_reverse]

/-- Behaviour of `parse_size` on a bare digit string: no unit defaults to MB,
i.e. the numeric value is returned unscaled. -/
theorem parseSizeAux_digits (ds : List Nat) (h0 : ds ≠ [])
    (h : ∀ d ∈ ds, isDigitCode d = true) :
    parseSizeAux ds = some ((digitsVal ds : ℚ)) := by
  have hdig : ∀ d ∈ ds, 48 ≤ d ∧ d ≤ 57 := by
    intro d hd
    have hx := h d hd
    simpa [isDigitCode] using hx
  have hsp : ∀ d ∈ ds, isSpaceCode d = false := by
    intro d hd
    have hx := hdig d hd
    simp only [isSpaceCode, decide_eq_false_iff_not]
    omega
  have hupper : ∀ d ∈ ds, upperCode d = d := by
    intro d hd
    have hx := hdig d hd
    unfold upperCode
    rw [if_neg]
    omega
  have hnum : ∀ d ∈ ds, isNumChar d = true := by
    intro d hd
    simp [isNumChar, h d hd]
  have hne46 : ∀ d ∈ ds, (d != 46) = true := by
    intro d hd
    have hx := hdig d hd
    simp only [bne_iff_ne, ne_eq]
    omega
  have hcount : ds.count 46 = 0 := by
    rw [List.count_eq_zero]
    intro hmem
    have hx := hdig 46 hmem
    omega
  have hany : ds.any isDigitCode = true := by
    cases ds with
    | nil => exact absurd rfl h0
    | cons a t => simp [List.any_cons, h a (List.mem_cons_self a t)]
  unfold parseSizeAux pyFloat
  rw [pyStrip_eq_self ds hsp, map_eq_self_of_forall _ _ hupper]
  simp [takeWhile_eq_self_of_forall _ _ hnum, dropWhile_eq_nil_of_forall _ _ hnum,
    takeWhile_eq_self_of_forall _ _ hne46, dropWhile_eq_nil_of_forall _ _ hne46,
    h0, hcount, hany, digitsVal]

/-- Behaviour of `manual_entry` on a rejected (non-blank, unparseable)
entry: the entry contributes nothing and one further prompt is issued.
The hypothesis is stated on the stripped entry, which is exactly what
`manual_entry` hands to `parse_size` (and `parse_size` strips again). -/
theorem manual_entry_reprompts (inp : String) (rest : List String)
    (h1 : pyStrip (toCodes inp) ≠ [])
    (h2 : parseSizeAux (pyStrip (toCodes inp)) = none) :
    manual_entry (inp :: rest) = manual_entry rest ∧
    manual_entry_prompts (inp :: rest) = 1 + manual_entry_prompts rest := by
  constructor
  · simp [manual_entry, h1, h2]
  · simp [manual_entry_prompts, h1, h2]

/-- With a succeeding indicator update, the fallible stop model is the stop
model used by the event machine. -/
theorem stop_ind_coherent (s : S) :
    stop_recording_and_transcribe_ind true s =
      Except.ok (stop_recording_and_transcribe s) := by
  by_cases h : s.is_recording = true
  · simp [stop_recording_and_transcribe_ind, stop_recording_and_transcribe, h]
  · simp only [Bool.not_eq_true] at h
    simp [stop_recording_and_transcribe_ind, stop_recording_and_transcribe, h]

/-- With a succeeding indicator update, the fallible worker model is the
worker model used by the event machine. -/
theorem process_ind_coherent (tr : List Nat → Except Unit (List String))
    (s : S) :
    process_audio_for_transcription_ind true tr s =
      Except.ok (process_audio_for_transcription tr s) := by
  by_cases h : s.current_audio_data = []
  · simp [process_audio_for_transcription_ind, process_audio_for_transcription, h]
  · cases htr : tr s.current_audio_data with
    | ok segs =>
      simp [process_audio_for_transcription_ind,
        process_audio_for_transcription, h, htr]
    | error e =>
      simp [process_audio_for_transcription_ind,
        process_audio_for_transcription, h, htr]

/-!
The claims.
-/

/-- C1: a `Recording` session with zero appended frames, run to worker
completion (`down`, `up`, `workerDone` from the initial state).  The code is
evaluated at this failing input: the Transcriber is never invoked and the
Typist is never invoked (as the claim states), but — contrary to the claim —
the presence indicator is NOT reverted to `Idle`: the early return on an
empty accumulator (line 98) happens before the `try`/`finally`, so the icon
stays at TRANSCRIBING, although the `finally` comment (line 133) documents
the intent that the icon always reverts to idle. -/
theorem c1_zero_frame_session :
    run env0 init [Ev.down, Ev.up, Ev.workerDone] =
      { init with indicator := Ind.Transcribing, sessions_started := 1 } ∧
    (run env0 init [Ev.down, Ev.up, Ev.workerDone]).typed = [] ∧
    (run env0 init [Ev.down, Ev.up, Ev.workerDone]).transcribe_calls = 0 ∧
    (run env0 init [Ev.down, Ev.up, Ev.workerDone]).indicator ≠ Ind.Idle := by
  decide

/-- C2 counterexample: from the idle initial state, a failed capture-stream
open returns normally (the exception is caught at lines 73-75, so the
failure is only logged) with the recording flag reset — but the resulting
state's indicator is `Listening`, not `Idle`: the icon was set at lines
58-60 BEFORE the `try`, and the handler does not revert it.  This refutes
the clause "the presence indicator is not left set to Listening". -/
theorem c2_counterexample :
    start_recording true false init =
      Except.ok { init with indicator := Ind.Listening } ∧
    ({ init with indicator := Ind.Listening } : S).indicator ≠ Ind.Idle := by
  exact ⟨rfl, by decide⟩

/-- C2 (amended): for every hotkey-engaged event received while the
controller is Idle (recording flag clear), if opening the capture stream
fails then the call returns normally (failure caught and only logged), the
recording flag is reset (the controller is back to Idle), the stream is not
opened and no session is counted (those fields are unchanged from `s`) —
but the presence indicator IS left set to `Listening`. -/
theorem c2_open_failure_idle_but_listening (s : S)
    (h : s.is_recording = false) :
    start_recording true false s =
      Except.ok { s with is_recording := false, current_audio_data := [],
                         indicator := Ind.Listening } := by
  simp [start_recording, h]

/-- C2 witness: the amended theorem evaluated at the initial state. -/
theorem c2_witness :
    start_recording true false init =
      Except.ok { init with is_recording := false, current_audio_data := [],
                            indicator := Ind.Listening } :=
  c2_open_failure_idle_but_listening init rfl

/-- C3 counterexample: after `down`, one frame, `up`, the controller is in
the `Transcribing` phase with the frame still buffered; a further
hotkey-engaged event then clears the accumulator (the worker has not yet
read it) and starts a second capture session — the guard `if not
is_recording` (line 54) does not cover the Transcribing phase, since
`is_recording` was already cleared at line 81. -/
theorem c3_counterexample :
    phase (run env0 init [Ev.down, Ev.frame 7, Ev.up]) = Phase.Transcribing ∧
    (run env0 init [Ev.down, Ev.frame 7, Ev.up]).current_audio_data = [7] ∧
    (step env0 (run env0 init [Ev.down, Ev.frame 7, Ev.up])
        Ev.down).current_audio_data = [] ∧
    (step env0 (run env0 init [Ev.down, Ev.frame 7, Ev.up])
        Ev.down).sessions_started =
      (run env0 init [Ev.down, Ev.frame 7, Ev.up]).sessions_started + 1 := by
  decide

/-- C3 (amended): the re-entrancy guard holds only for the `Recording`
phase: a hotkey-engaged event while already `Recording` is a complete no-op
(no second capture session, accumulator untouched); but a hotkey-engaged
event while `Transcribing` (worker still pending) starts a new capture
session and clears the audio accumulator. -/
theorem c3_guard_only_while_recording :
    (∀ (env : Env) (s : S), s.is_recording = true → step env s Ev.down = s) ∧
    (∀ (env : Env) (s : S), phase s = Phase.Transcribing → env.openOk = true →
      step env s Ev.down =
        { s with is_recording := true, current_audio_data := [],
                 indicator := Ind.Listening, stream_open := true,
                 sessions_started := s.sessions_started + 1 }) := by
  constructor
  · intro env s h
    simp [step, start_recording, h]
  · intro env s h ho
    have hrec : s.is_recording = false := by
      cases hx : s.is_recording
      · rfl
      · simp [phase, hx] at h
    simp [step, start_recording, hrec, ho]

/-- C3 witness: both parts of the amended theorem at concrete states — a
recording state (the event is a no-op) and a transcribing state (a second
session starts and the buffered frame is discarded). -/
theorem c3_witness :
    step env0 { init with is_recording := true } Ev.down =
      { init with is_recording := true } ∧
    step env0 { init with pending_worker := true, current_audio_data := [7] }
        Ev.down =
      { init with pending_worker := true, is_recording := true,
                  current_audio_data := [], indicator := Ind.Listening,
                  stream_open := true, sessions_started := 1 } :=
  ⟨c3_guard_only_while_recording.1 env0 _ rfl,
   c3_guard_only_while_recording.2 env0 _ (by decide) rfl⟩

/-- C4 counterexample: in `start_recording` the tray update (lines 58-60)
has no try/except; if it fails, the exception propagates (`.error`, i.e. the
failure is NOT caught) and the dictation flow is aborted: the capture stream
is never opened (`stream_open` still `false`, no session counted), with the
recording flag left set.  This refutes "a failure of that update is caught
and logged and never aborts or alters the dictation flow". -/
theorem c4_counterexample :
    start_recording false true init =
      Except.error { init with is_recording := true } ∧
    ({ init with is_recording := true } : S).stream_open = false ∧
    ({ init with is_recording := true } : S).sessions_started = 0 := by
  exact ⟨rfl, rfl, rfl⟩

/-- C4 (amended): no presence-indicator update in the dictation flow is
guarded by error handling; a failing update raises an exception that
propagates uncaught out of the enclosing function, with a per-site
consequence for the flow.  (i) In `start_recording` (lines 58-60), a failed
LISTENING update means the capture stream is never opened, while the
recording flag is left set with the accumulator cleared.  (ii) In
`stop_recording_and_transcribe` (lines 86-88), a failed TRANSCRIBING update
means the transcription worker is never spawned — no transcription and no
typing happen — with the flag cleared and the stream closed.  (iii) In the
worker's `finally` (lines 133-136), a failed IDLE revert propagates out of
the worker thread; transcription (and typing) have already run, and the
resulting state is exactly the normal worker result except that the
indicator keeps its pre-worker value instead of reverting to `Idle`. -/
theorem c4_indicator_failure_uncaught :
    (∀ (openOk : Bool) (s : S), s.is_recording = false →
      start_recording false openOk s =
        Except.error { s with is_recording := true,
                              current_audio_data := [] }) ∧
    (∀ s : S, s.is_recording = true →
      stop_recording_and_transcribe_ind false s =
        Except.error { s with is_recording := false, stream_open := false }) ∧
    (∀ (tr : List Nat → Except Unit (List String)) (s : S),
      s.current_audio_data ≠ [] →
      process_audio_for_transcription_ind false tr s =
        Except.error
          { process_audio_for_transcription tr s with
              indicator := s.indicator }) := by
  refine ⟨?_, ?_, ?_⟩
  · intro openOk s h
    simp [start_recording, h]
  · intro s h
    simp [stop_recording_and_transcribe_ind, h]
  · intro tr s h
    cases htr : tr s.current_audio_data with
    | ok segs =>
      by_cases ht : (String.intercalate " " segs).trim = ""
      · simp [process_audio_for_transcription_ind,
          process_audio_for_transcription, h, htr, ht]
      · simp [process_audio_for_transcription_ind,
          process_audio_for_transcription, h, htr, ht]
    | error e =>
      simp [process_audio_for_transcription_ind,
        process_audio_for_transcription, h, htr]

/-- C4 witness: the three sites of the amended theorem at concrete states —
a failed LISTENING update from the idle initial state, a failed TRANSCRIBING
update from a mid-recording state with an open stream, and a failed IDLE
revert in a worker run over one buffered frame with a raising transcriber
(the state keeps `transcribe_calls` incremented but the indicator stays
`Transcribing`). -/
theorem c4_witness :
    start_recording false true init =
      Except.error { init with is_recording := true,
                               current_audio_data := [] } ∧
    stop_recording_and_transcribe_ind false
        { init with is_recording := true, stream_open := true } =
      Except.error init ∧
    process_audio_for_transcription_ind false (fun _ => Except.error ())
        { init with current_audio_data := [1],
                    indicator := Ind.Transcribing } =
      Except.error { init with current_audio_data := [1],
                               indicator := Ind.Transcribing,
                               transcribe_calls := 1 } :=
  ⟨c4_indicator_failure_uncaught.1 true init rfl,
   c4_indicator_failure_uncaught.2.1
     { init with is_recording := true, stream_open := true } rfl,
   c4_indicator_failure_uncaught.2.2 (fun _ => Except.error ())
     { init with current_audio_data := [1], indicator := Ind.Transcribing }
     (by decide)⟩

/-- C5 counterexample: typing `"abc"` with an injector that fails on `'b'`:
only `'a'` is injected and the loop aborts with the exception propagating
(`false`); in particular `'c'` — a remaining character after the failure —
is never typed.  This refutes "the remaining characters of the string are
still typed". -/
theorem c5_counterexample :
    type_text (fun c => c != 'b') ['a', 'b', 'c'] = (['a'], false) ∧
    'c' ∉ (type_text (fun c => c != 'b') ['a', 'b', 'c']).1 := by
  decide

/-- C5 (amended): `type_text` has no per-character error handling: it types
the longest prefix of characters whose injection succeeds and, at the first
failing character, aborts with the exception propagating to the caller
(completion flag is `true` iff every character injects successfully); the
characters after a failure are not typed. -/
theorem c5_type_text_aborts_at_failure (ok : Char → Bool) (cs : List Char) :
    type_text ok cs = (cs.takeWhile ok, cs.all ok) := by
  induction cs with
  | nil => rfl
  | cons c t ih =>
    cases h : ok c
    · simp [type_text, h]
    · simp [type_text, h, ih]

/-- C5 witness: the amended theorem evaluated on `['a', 'b', 'c']` with an
injector failing exactly on `'b'`. -/
theorem c5_witness :
    type_text (fun c => c != 'b') ['a', 'b', 'x'] = (['a'], false) :=
  (c5_type_text_aborts_at_failure (fun c => c != 'b') ['a', 'b', 'x']).trans
    (by decide)

/-- C6 counterexample: the empty entry is malformed by the code's own
validator (`parse_size` raises `ValueError` on `""`, modelled as `none`),
yet `manual_entry` does not reject and re-prompt it: it silently returns
`0.0` — with a parseable `"5 GB"` queued behind it, the result is `0`, not
`5120`.  This refutes "for every malformed input string manual_entry
rejects it and re-prompts rather than silently coercing it to a value". -/
theorem c6_counterexample :
    parse_size "" = none ∧
    manual_entry ["", "5 GB"] = some 0 ∧
    manual_entry ["5 GB"] = some 5120 := by
  refine ⟨by with_unfolding_all rfl, by with_unfolding_all rfl,
    by with_unfolding_all rfl⟩

/-- C6 (amended): `parse_size` converts `"10 GB"` to `10240` (MB), `"500
MB"` to `500`, `"1 TB"` to `1048576`; a bare digit string with no unit is
treated as MB (returned unscaled); every malformed entry that is non-blank
after stripping is rejected and re-prompted, contributing nothing; but the
blank entry — although `parse_size` itself rejects it — is silently
returned as `0.0` without re-prompting. -/
theorem c6_parse_size_spec :
    parse_size "10 GB" = some 10240 ∧
    parse_size "500 MB" = some 500 ∧
    parse_size "1 TB" = some 1048576 ∧
    (∀ ds : List Nat, ds ≠ [] → (∀ d ∈ ds, isDigitCode d = true) →
      parseSizeAux ds = some ((digitsVal ds : ℚ))) ∧
    (∀ (inp : String) (rest : List String),
      pyStrip (toCodes inp) ≠ [] →
      parseSizeAux (pyStrip (toCodes inp)) = none →
      manual_entry (inp :: rest) = manual_entry rest ∧
      manual_entry_prompts (inp :: rest) = 1 + manual_entry_prompts rest) ∧
    manual_entry [""] = some 0 := by
  refine ⟨by with_unfolding_all rfl, by with_unfolding_all rfl,
    by with_unfolding_all rfl, parseSizeAux_digits, manual_entry_reprompts,
    by with_unfolding_all rfl⟩

/-- C6 witness: the universally quantified parts of the amended theorem at
concrete inputs — the bare digit string `"500"` (code points `[53, 48, 48]`)
and the malformed entry `"1Q"` followed by `"2 GB"`. -/
theorem c6_witness :
    parseSizeAux [53, 48, 48] = some ((digitsVal [53, 48, 48] : ℚ)) ∧
    manual_entry ["1Q", "2 GB"] = manual_entry ["2 GB"] ∧
    manual_entry_prompts ["1Q", "2 GB"] = 1 + manual_entry_prompts ["2 GB"] :=
  ⟨c6_parse_size_spec.2.2.2.1 [53, 48, 48] (by decide) (by decide),
   (c6_parse_size_spec.2.2.2.2.1 "1Q" ["2 GB"] (by decide) (by decide)).1,
   (c6_parse_size_spec.2.2.2.2.1 "1Q" ["2 GB"] (by decide) (by decide)).2⟩

/-- C7: if the accumulator is non-empty (so the worker reaches the
transcription call) and `model.transcribe` raises, the failure is treated
as an empty-text result: the except block at lines 131-132 swallows it, the
Typist is never reached (`typed` unchanged) and the `finally` at lines
133-136 still reverts the indicator to `Idle`. -/
theorem c7_transcription_error_idle
    (tr : List Nat → Except Unit (List String)) (s : S)
    (h : s.current_audio_data ≠ [])
    (he : tr s.current_audio_data = Except.error ()) :
    process_audio_for_transcription tr s =
      { s with transcribe_calls := s.transcribe_calls + 1,
               indicator := Ind.Idle } := by
  simp [process_audio_for_transcription, h, he]

/-- C7 witness: a one-frame state with an always-raising transcriber. -/
theorem c7_witness :
    process_audio_for_transcription (fun _ => Except.error ())
        { init with current_audio_data := [1] } =
      { init with current_audio_data := [1], transcribe_calls := 1,
                  indicator := Ind.Idle } :=
  c7_transcription_error_idle (fun _ => Except.error ())
    { init with current_audio_data := [1] } (by decide) rfl

/-- C8: any sequence of additional hotkey-down events received while the
recording flag is set leaves the state completely unchanged (the guard at
line 54 makes `start_recording` a no-op): in particular the state stays
`Recording` and the accumulator is not cleared. -/
theorem c8_down_while_recording_noop (env : Env) (s : S) (evs : List Ev)
    (h : s.is_recording = true) (hall : ∀ e ∈ evs, e = Ev.down) :
    run env s evs = s := by
  induction evs with
  | nil => rfl
  | cons e t ih =>
    have he : e = Ev.down := hall e (List.mem_cons_self e t)
    subst he
    have hs : step env s Ev.down = s := by
      simp [step, start_recording, h]
    show List.foldl (step env) (step env s Ev.down) t = s
    rw [hs]
    exact ih fun x hx => hall x (List.mem_cons_of_mem _ hx)

/-- C8 witness: two repeated hotkey-down events in a mid-recording state
with a buffered frame. -/
theorem c8_witness :
    run env0
      { init with is_recording := true, indicator := Ind.Listening,
                  stream_open := true, sessions_started := 1,
                  current_audio_data := [5] }
      [Ev.down, Ev.down] =
    { init with is_recording := true, indicator := Ind.Listening,
                stream_open := true, sessions_started := 1,
                current_audio_data := [5] } :=
  c8_down_while_recording_noop env0 _ [Ev.down, Ev.down] rfl (by decide)

/-- C9: any sequence of hotkey-up events received while the controller is
`Idle` leaves the state completely unchanged (`stop_recording_and_transcribe`
is guarded by `if is_recording`, line 79): no transition, no indicator
change, no worker spawned — hence neither Transcriber nor Typist runs
(`transcribe_calls` and `typed` are those of `s`). -/
theorem c9_up_while_idle_noop (env : Env) (s : S) (evs : List Ev)
    (h : phase s = Phase.Idle) (hall : ∀ e ∈ evs, e = Ev.up) :
    run env s evs = s := by
  have hrec : s.is_recording = false := by
    cases hx : s.is_recording
    · rfl
    · simp [phase, hx] at h
  induction evs with
  | nil => rfl
  | cons e t ih =>
    have he : e = Ev.up := hall e (List.mem_cons_self e t)
    subst he
    have hs : step env s Ev.up = s := by
      simp [step, stop_recording_and_transcribe, hrec]
    show List.foldl (step env) (step env s Ev.up) t = s
    rw [hs]
    exact ih fun x hx => hall x (List.mem_cons_of_mem _ hx)

/-- C9 witness: two hotkey-up events from the initial idle state. -/
theorem c9_witness : run env0 init [Ev.up, Ev.up] = init :=
  c9_up_while_idle_noop env0 init [Ev.up, Ev.up] rfl (by decide)

/-- C10: an empty entry (user just presses Enter) makes `manual_entry`
return `0.0` immediately — a single prompt, no re-prompt, not treated as
malformed — so it silently contributes `0` MB to the total. -/
theorem c10_empty_entry_returns_zero (rest : List String) :
    manual_entry ("" :: rest) = some 0 ∧
    manual_entry_prompts ("" :: rest) = 1 :=
  ⟨rfl, rfl⟩

/-- C10 witness: the theorem with no further queued entries. -/
theorem c10_witness :
    manual_entry [""] = some 0 ∧ manual_entry_prompts [""] = 1 :=
  c10_empty_entry_returns_zero []
